import Mathlib

/-!
Shallow embedding of `src/tcod/context.py` from python-tcod, the module that
creates and manages libtcod display contexts.

The external C subsystem (libtcod / SDL, reached through `lib.*` cffi calls)
is modelled as an oracle structure `Subsystem` whose fields give the status
code and output of each C entry point.  A `Context` holds the optional cffi
pointer `_context_p`; the attribute is deleted by `close`, and any later
attribute access raises, which is modelled by `ContextError.useAfterClose`.
Fallible operations return `Except ContextError`.

Pure algorithms that the spec attributes to the core but whose code lives in
the C library (the viewport placement math and the pixel-to-tile transform)
are modelled from the spec, and each such definition says so in its doc
comment.
-/

namespace Tcod

/-- An opaque handle standing for a cffi pointer. -/
abbrev Handle := Nat

/-- Error kinds for the embedded operations.
`useAfterClose` models the `AttributeError` raised when `self._context_p` is
accessed after `close` deleted it (the `UseAfterCloseError` of the spec);
`subsystem code` models the error `_check`/`_check_warn` raise on a negative
status code from the C library; `typeError` models the `TypeError` raised by
`sdl_window_p` when the context has no SDL window. -/
inductive ContextError where
  | useAfterClose : ContextError
  | subsystem : Int → ContextError
  | typeError : ContextError
deriving DecidableEq, Repr

/-- `lib.TCOD_RENDERER_OPENGL` from the libtcod headers. -/
def RENDERER_OPENGL : Int := 1

/-- `lib.TCOD_RENDERER_SDL` from the libtcod headers. -/
def RENDERER_SDL : Int := 2

/-- `lib.TCOD_RENDERER_SDL2` from the libtcod headers: the main
hardware-accelerated SDL2 renderer. -/
def RENDERER_SDL2 : Int := 3

/-- `lib.TCOD_RENDERER_OPENGL2` from the libtcod headers. -/
def RENDERER_OPENGL2 : Int := 4

/-- `lib.SDL_WINDOW_RESIZABLE` from the SDL headers. -/
def SDL_WINDOW_RESIZABLE : Int := 32

/-- Modelled from the spec: `_check` from `tcod._internal`, which is code of
this repository not under `src/`.  Spec section 6: every subsystem call
returns a status code and a negative status indicates failure; section 7:
all subsystem status failures are converted immediately into the
corresponding error kind. -/
def _check (status : Int) : Except ContextError Int :=
  if status < 0 then Except.error (ContextError.subsystem status) else Except.ok status

/-- Modelled from the spec: `_check_warn` from `tcod._internal`, which is
code of this repository not under `src/`.  Spec section 7: a distinguished
subset of construction failures are treated as warnings and the call still
succeeds; only fatal (negative) statuses abort. -/
def _check_warn (status : Int) : Except ContextError Int :=
  if status < 0 then Except.error (ContextError.subsystem status) else Except.ok status

/-- The `struct TCOD_ViewportOptions` value marshalled by `Context.present`:
fields `keep_aspect`, `integer_scaling`, `clear_color` (RGBA), `align_x`,
`align_y`. -/
structure ViewportOptionsC where
  keep_aspect : Bool
  integer_scaling : Bool
  clear_color : Int × Int × Int × Int
  align_x : ℚ
  align_y : ℚ
deriving DecidableEq, Repr

/-- The argument tuple `new_window`/`new_terminal` pass to
`TCOD_context_new_window`/`TCOD_context_new_terminal`. -/
structure WindowRequest where
  width : Int
  height : Int
  renderer : Int
  tileset_p : Option Handle
  vsync : Bool
  sdl_window_flags : Int
  title : String
deriving DecidableEq, Repr

/-- Oracle for the external C subsystem: each field gives the status code
and/or result of one `lib.TCOD_context_*` entry point.  `none` for
`sdl_window` models a NULL `SDL_Window*`. -/
structure Subsystem where
  present_status : Handle → Handle → ViewportOptionsC → Int
  pixel_to_tile_i : Handle → Int × Int → Int × Int
  pixel_to_tile_i_status : Handle → Int × Int → Int
  pixel_to_tile_d : Handle → ℚ × ℚ → ℚ × ℚ
  pixel_to_tile_d_status : Handle → ℚ × ℚ → Int
  save_screenshot_status : Handle → Option String → Int
  change_tileset_status : Handle → Option Handle → Int
  recommended_size : Handle → Int × Int
  recommended_status : Handle → Int
  renderer_type_of : Handle → Int
  sdl_window : Handle → Option Handle
  window_status : WindowRequest → Int
  terminal_status : WindowRequest → Int
  new_handle : Handle

/-- `tcod.tileset.Tileset`: the core only reads its `_tileset_p` pointer. -/
structure Tileset where
  _tileset_p : Handle
deriving DecidableEq, Repr

/-- `_handle_tileset`: the `TCOD_Tileset` pointer from a `Tileset`, or a NULL
pointer (`none`) when no tileset is given. -/
def _handle_tileset (tileset : Option Tileset) : Option Handle :=
  match tileset with
  | some t => some t._tileset_p
  | none => none

/-- `os.path.basename`: the final path component, everything after the last
slash. -/
def basename (path : String) : String :=
  match (path.splitOn "/").getLast? with
  | some s => s
  | none => path

/-- `_handle_title`: the given title, or if the title is `none` the base name
of `sys.argv[0]` (passed here explicitly as `argv0`). -/
def _handle_title (title : Option String) (argv0 : String) : String :=
  match title with
  | none => basename argv0
  | some t => t

/-- `tcod.context.Context`: owns the optional cffi pointer `_context_p`.
`none` means `close` has deleted the attribute. -/
structure Context where
  context_p : Option Handle
deriving DecidableEq, Repr

/-- Accessing `self._context_p`: yields the pointer while it exists and
raises (`useAfterClose`) once `close` has deleted it. -/
def Context.getHandle (c : Context) : Except ContextError Handle :=
  match c.context_p with
  | some h => Except.ok h
  | none => Except.error ContextError.useAfterClose

/-- `Context.close`: if the `_context_p` attribute exists, release it and
delete the attribute; otherwise do nothing.  The second component lists the
handles released by this call. -/
def Context.close (c : Context) : Context × List Handle :=
  match c.context_p with
  | some h => (⟨none⟩, [h])
  | none => (c, [])

/-- The `with` statement over a `Context`: `__enter__` returns the context
itself, the body runs, and `__exit__` calls `close` on every exit path, both
normal return and error propagation.  Returns the outcome of the body and the
context state after exit. -/
def Context.withScope {α : Type} (c : Context) (body : Context → Except ContextError α) :
    Except ContextError α × Context :=
  (body c, (c.close).1)

/-- The options dictionary built by `Context.present`:
`clear_rgba = (clear_color[0], clear_color[1], clear_color[2], 255)`. -/
def present_options (keep_aspect integer_scaling : Bool)
    (clear_color : Int × Int × Int) (align : ℚ × ℚ) : ViewportOptionsC :=
  ⟨keep_aspect, integer_scaling,
   (clear_color.1, clear_color.2.1, clear_color.2.2, 255),
   align.1, align.2⟩

/-- `Context.present`: marshal the viewport options, then call
`TCOD_context_present` and check its status. -/
def Context.present (sub : Subsystem) (c : Context) (console_c : Handle)
    (keep_aspect integer_scaling : Bool) (clear_color : Int × Int × Int)
    (align : ℚ × ℚ) : Except ContextError Unit := do
  let opts := present_options keep_aspect integer_scaling clear_color align
  let h ← c.getHandle
  let _ ← _check (sub.present_status h console_c opts)
  return ()

/-- `Context.pixel_to_tile`: call `TCOD_context_screen_pixel_to_tile_i`,
check its status, and return the converted pair. -/
def Context.pixel_to_tile (sub : Subsystem) (c : Context) (x y : Int) :
    Except ContextError (Int × Int) := do
  let h ← c.getHandle
  let _ ← _check (sub.pixel_to_tile_i_status h (x, y))
  return sub.pixel_to_tile_i h (x, y)

/-- `Context.pixel_to_subtile`: call `TCOD_context_screen_pixel_to_tile_d`
on the coordinates cast to double, check its status, and return the
converted pair. -/
def Context.pixel_to_subtile (sub : Subsystem) (c : Context) (x y : Int) :
    Except ContextError (ℚ × ℚ) := do
  let h ← c.getHandle
  let _ ← _check (sub.pixel_to_tile_d_status h ((x : ℚ), (y : ℚ)))
  return sub.pixel_to_tile_d h ((x : ℚ), (y : ℚ))

/-- `tcod.event.Point`. -/
structure Point where
  x : Int
  y : Int
deriving DecidableEq, Repr

/-- `tcod.event.MouseState`: the fields `convert_event` reads and writes. -/
structure MouseState where
  pixel : Point
  tile : Point
deriving DecidableEq, Repr

/-- `tcod.event.MouseMotion`: the fields `convert_event` reads and writes. -/
structure MouseMotion where
  pixel : Point
  pixel_motion : Point
  tile : Point
  tile_motion : Point
deriving DecidableEq, Repr

/-- The `Union[tcod.event.MouseState, tcod.event.MouseMotion]` argument of
`convert_event`; the `isinstance` test picks the branch. -/
inductive MouseEvent where
  | state : MouseState → MouseEvent
  | motion : MouseMotion → MouseEvent
deriving DecidableEq, Repr

/-- `Context.convert_event`: set `event.tile` from `pixel_to_tile` of
`event.pixel`; for a `MouseMotion` also convert the pre-motion pixel
position `pixel - pixel_motion` and set `tile_motion = tile - prev_tile`. -/
def Context.convert_event (sub : Subsystem) (c : Context) (event : MouseEvent) :
    Except ContextError MouseEvent := do
  match event with
  | MouseEvent.state e => do
      let t ← c.pixel_to_tile sub e.pixel.x e.pixel.y
      return MouseEvent.state ⟨e.pixel, ⟨t.1, t.2⟩⟩
  | MouseEvent.motion e => do
      let t ← c.pixel_to_tile sub e.pixel.x e.pixel.y
      let prev_tile ← c.pixel_to_tile sub (e.pixel.x - e.pixel_motion.x)
        (e.pixel.y - e.pixel_motion.y)
      return MouseEvent.motion
        ⟨e.pixel, e.pixel_motion, ⟨t.1, t.2⟩,
         ⟨t.1 - prev_tile.1, t.2 - prev_tile.2⟩⟩

/-- `Context.save_screenshot`: call `TCOD_context_save_screenshot` with the
encoded path or NULL and check its status. -/
def Context.save_screenshot (sub : Subsystem) (c : Context) (path : Option String) :
    Except ContextError Unit := do
  let h ← c.getHandle
  let _ ← _check (sub.save_screenshot_status h path)
  return ()

/-- `Context.change_tileset`: call `TCOD_context_change_tileset` with the
tileset pointer from `_handle_tileset` and check its status. -/
def Context.change_tileset (sub : Subsystem) (c : Context) (tileset : Option Tileset) :
    Except ContextError Unit := do
  let h ← c.getHandle
  let _ ← _check (sub.change_tileset_status h (_handle_tileset tileset))
  return ()

/-- `Context.recommended_console_size`: call
`TCOD_context_recommended_console_size` into `size`, check its status, and
`return max(min_columns, size[0]), max(min_rows, 1)` exactly as the source
does. -/
def Context.recommended_console_size (sub : Subsystem) (c : Context)
    (min_columns min_rows : Int) : Except ContextError (Int × Int) := do
  let h ← c.getHandle
  let _ ← _check (sub.recommended_status h)
  return (max min_columns (sub.recommended_size h).1, max min_rows 1)

/-- `Context.renderer_type`: `_check` of `TCOD_context_get_renderer_type`. -/
def Context.renderer_type (sub : Subsystem) (c : Context) : Except ContextError Int := do
  let h ← c.getHandle
  _check (sub.renderer_type_of h)

/-- `Context.sdl_window_p`: return the `SDL_Window*`, raising `TypeError`
when it is NULL. -/
def Context.sdl_window_p (sub : Subsystem) (c : Context) : Except ContextError Handle := do
  let h ← c.getHandle
  match sub.sdl_window h with
  | some w => return w
  | none => throw ContextError.typeError

/-- The argument tuple `new_window` builds: renderer defaults to
`RENDERER_SDL2`, window flags default to `SDL_WINDOW_RESIZABLE`, the tileset
goes through `_handle_tileset` and the title through `_handle_title`. -/
def new_window_request (width height : Int) (renderer : Option Int)
    (tileset : Option Tileset) (vsync : Bool) (sdl_window_flags : Option Int)
    (title : Option String) (argv0 : String) : WindowRequest :=
  ⟨width, height,
   (match renderer with | none => RENDERER_SDL2 | some r => r),
   _handle_tileset tileset, vsync,
   (match sdl_window_flags with | none => SDL_WINDOW_RESIZABLE | some f => f),
   _handle_title title argv0⟩

/-- Modelled from the spec: the subsystem entry `create_window_context`
(`TCOD_context_new_window`, whose code is not under `src/`).  Spec section
4.2: `new_window` "Validates width/height > 0"; section 7: bad factory
arguments are a `ConstructionError`, a fatal (negative) status.  Other
failures are left to the oracle. -/
def create_window_context (sub : Subsystem) (req : WindowRequest) : Int :=
  if req.width ≤ 0 ∨ req.height ≤ 0 then -1 else sub.window_status req

/-- `tcod.context.new_window`: normalize the options into the request
(defaults resolved as in the source), call the subsystem through
`_check_warn`, and wrap the produced handle in a `Context`. -/
def new_window (sub : Subsystem) (width height : Int) (renderer : Option Int)
    (tileset : Option Tileset) (vsync : Bool) (sdl_window_flags : Option Int)
    (title : Option String) (argv0 : String) : Except ContextError Context := do
  let req := new_window_request width height renderer tileset vsync sdl_window_flags title argv0
  let _ ← _check_warn (create_window_context sub req)
  return ⟨some sub.new_handle⟩

/-- The argument tuple `new_terminal` builds; identical normalization to
`new_window` with grid dimensions in place of pixel dimensions. -/
def new_terminal_request (columns rows : Int) (renderer : Option Int)
    (tileset : Option Tileset) (vsync : Bool) (sdl_window_flags : Option Int)
    (title : Option String) (argv0 : String) : WindowRequest :=
  ⟨columns, rows,
   (match renderer with | none => RENDERER_SDL2 | some r => r),
   _handle_tileset tileset, vsync,
   (match sdl_window_flags with | none => SDL_WINDOW_RESIZABLE | some f => f),
   _handle_title title argv0⟩

/-- `tcod.context.new_terminal`: same contract as `new_window` with the
subsystem computing the pixel size from the grid size. -/
def new_terminal (sub : Subsystem) (columns rows : Int) (renderer : Option Int)
    (tileset : Option Tileset) (vsync : Bool) (sdl_window_flags : Option Int)
    (title : Option String) (argv0 : String) : Except ContextError Context := do
  let req := new_terminal_request columns rows renderer tileset vsync sdl_window_flags title argv0
  let _ ← _check_warn (sub.terminal_status req)
  return ⟨some sub.new_handle⟩

/-- Modelled from the spec: the ViewportPolicy scale step, whose code lives
in the C library behind `TCOD_context_present` and is not under `src/`.
Spec section 4.3: scale = min(surface.w/console.w, surface.h/console.h) if
`keep_aspect`, else independent per-axis scale to fill the surface exactly;
if `integer_scaling`, floor the scale to the nearest integer >= 1. -/
def viewport_scale (console_w console_h surface_w surface_h : ℚ)
    (keep_aspect integer_scaling : Bool) : ℚ × ℚ :=
  let sx := surface_w / console_w
  let sy := surface_h / console_h
  let p := if keep_aspect then (min sx sy, min sx sy) else (sx, sy)
  if integer_scaling then (max 1 (⌊p.1⌋ : ℚ), max 1 (⌊p.2⌋ : ℚ)) else p

/-- A placement rectangle inside the display surface. -/
structure Rect where
  x : ℚ
  y : ℚ
  w : ℚ
  h : ℚ
deriving DecidableEq, Repr

/-- Modelled from the spec: ViewportPolicy `compute_rect`, whose code lives
in the C library and is not under `src/`.  Spec section 4.3: rect size =
console_size x scale; position = align.x * (surface.w - rect.w),
align.y * (surface.h - rect.h). -/
def compute_rect (console_w console_h surface_w surface_h : ℚ)
    (keep_aspect integer_scaling : Bool) (align_x align_y : ℚ) : Rect :=
  let s := viewport_scale console_w console_h surface_w surface_h keep_aspect integer_scaling
  let w := console_w * s.1
  let h := console_h * s.2
  ⟨align_x * (surface_w - w), align_y * (surface_h - h), w, h⟩

/-- The CoordinateTransform state: viewport rect origin and cell size. -/
structure Transform where
  origin_x : ℚ
  origin_y : ℚ
  cell_w : ℚ
  cell_h : ℚ
deriving DecidableEq, Repr

/-- Modelled from the spec: the sub-tile conversion performed by
`TCOD_context_screen_pixel_to_tile_d`, whose code is not under `src/`.
Spec section 4.4: sub-tile is the unfloored quotient
`(pixel - rect.origin) / rect.cell_size`. -/
def transform_pixel_to_subtile (t : Transform) (x y : ℚ) : ℚ × ℚ :=
  ((x - t.origin_x) / t.cell_w, (y - t.origin_y) / t.cell_h)

/-- Modelled from the spec: the tile conversion performed by
`TCOD_context_screen_pixel_to_tile_i`, whose code is not under `src/`.
Spec section 4.4: `tile = floor((pixel - rect.origin) / rect.cell_size)`. -/
def transform_pixel_to_tile (t : Transform) (x y : ℚ) : ℤ × ℤ :=
  (⌊(x - t.origin_x) / t.cell_w⌋, ⌊(y - t.origin_y) / t.cell_h⌋)

/-- A subsystem whose two pixel conversion entry points are induced by one
CoordinateTransform `t`, as the spec requires of a context with an
established transform; every status is success. -/
def transform_subsystem (t : Transform) : Subsystem where
  present_status := fun _ _ _ => 0
  pixel_to_tile_i := fun _ p =>
    ((transform_pixel_to_tile t (p.1 : ℚ) (p.2 : ℚ)).1,
     (transform_pixel_to_tile t (p.1 : ℚ) (p.2 : ℚ)).2)
  pixel_to_tile_i_status := fun _ _ => 0
  pixel_to_tile_d := fun _ p => transform_pixel_to_subtile t p.1 p.2
  pixel_to_tile_d_status := fun _ _ => 0
  save_screenshot_status := fun _ _ => 0
  change_tileset_status := fun _ _ => 0
  recommended_size := fun _ => (80, 50)
  recommended_status := fun _ => 0
  renderer_type_of := fun _ => RENDERER_SDL2
  sdl_window := fun h => some h
  window_status := fun _ => 0
  terminal_status := fun _ => 0
  new_handle := 7

/-- An all-success oracle used for concrete evaluations: the pixel
conversions are the identity transform, and the recommended console size
reported by the subsystem is `(80, 50)`. -/
def ok_sub : Subsystem where
  present_status := fun _ _ _ => 0
  pixel_to_tile_i := fun _ p => p
  pixel_to_tile_i_status := fun _ _ => 0
  pixel_to_tile_d := fun _ p => p
  pixel_to_tile_d_status := fun _ _ => 0
  save_screenshot_status := fun _ _ => 0
  change_tileset_status := fun _ _ => 0
  recommended_size := fun _ => (80, 50)
  recommended_status := fun _ => 0
  renderer_type_of := fun _ => RENDERER_SDL2
  sdl_window := fun h => some h
  window_status := fun _ => 0
  terminal_status := fun _ => 0
  new_handle := 7

/-- An open context wrapping handle 7, as produced by `ok_sub`. -/
def open_ctx : Context := ⟨some 7⟩

/-- Binding a success in the Except monad runs the continuation. -/
theorem ok_bind {α β : Type} (a : α) (f : α → Except ContextError β) :
    (Except.ok a >>= f) = f a := rfl

/-- Binding an error in the Except monad propagates the error. -/
theorem error_bind {α β : Type} (e : ContextError) (f : α → Except ContextError β) :
    ((Except.error e : Except ContextError α) >>= f) = Except.error e := rfl

/-- On a closed context, reading `_context_p` raises. -/
theorem getHandle_closed (c : Context) (hc : c.context_p = none) :
    c.getHandle = Except.error ContextError.useAfterClose := by
  simp [Context.getHandle, hc]

/-- After any `close` call the `_context_p` attribute is gone. -/
theorem close_fst_context_p (c : Context) : ((c.close).1).context_p = none := by
  cases hc : c.context_p <;> simp [Context.close, hc]

/-- `close` on an already-closed context does nothing and releases nothing. -/
theorem close_closed (c : Context) (hc : c.context_p = none) : c.close = (c, []) := by
  obtain ⟨p⟩ := c
  cases hc
  rfl

/-- C1: the claim states that `recommended_console_size(min_columns,
min_rows)` returns `(max(min_columns, cols), max(min_rows, rows))` where
`(cols, rows)` is the best-fit recommendation of the subsystem.  The code instead
returns `max(min_rows, 1)` for the rows component, discarding the rows the
subsystem wrote into `size[1]`: with the subsystem recommending `(80, 50)`
and minimums `(1, 1)` the code yields `(80, 1)` while the claimed formula
yields `(80, 50)`. -/
theorem recommended_console_size_rows_dropped :
    ok_sub.recommended_size 7 = (80, 50) ∧
    Context.recommended_console_size ok_sub open_ctx 1 1 = Except.ok (80, 1) ∧
    ((80 : Int), (1 : Int)) ≠ (max (1 : Int) 80, max (1 : Int) 50) :=
  ⟨rfl, rfl, by decide⟩

/-- C2: on a context produced by `new_window` with positive dimensions and
then closed, every operation other than `close` — `present`,
`pixel_to_tile`, `pixel_to_subtile`, `convert_event`, `save_screenshot`,
`change_tileset`, `recommended_console_size`, `renderer_type`,
`sdl_window_p` — fails with the use-after-close error, for all arguments. -/
theorem ops_after_close_fail (sub : Subsystem) (w h : Int) (hw : 0 < w) (hh : 0 < h)
    (r : Option Int) (ts : Option Tileset) (vs : Bool) (fl : Option Int)
    (ti : Option String) (argv0 : String) (ctx : Context)
    (hctx : new_window sub w h r ts vs fl ti argv0 = Except.ok ctx)
    (console : Handle) (ka isc : Bool) (cc : Int × Int × Int) (al : ℚ × ℚ)
    (x y : Int) (path : Option String) (tsw : Option Tileset) (mc mr : Int)
    (ev : MouseEvent) :
    Context.present sub ((ctx.close).1) console ka isc cc al = Except.error ContextError.useAfterClose ∧
    Context.pixel_to_tile sub ((ctx.close).1) x y = Except.error ContextError.useAfterClose ∧
    Context.pixel_to_subtile sub ((ctx.close).1) x y = Except.error ContextError.useAfterClose ∧
    Context.convert_event sub ((ctx.close).1) ev = Except.error ContextError.useAfterClose ∧
    Context.save_screenshot sub ((ctx.close).1) path = Except.error ContextError.useAfterClose ∧
    Context.change_tileset sub ((ctx.close).1) tsw = Except.error ContextError.useAfterClose ∧
    Context.recommended_console_size sub ((ctx.close).1) mc mr = Except.error ContextError.useAfterClose ∧
    Context.renderer_type sub ((ctx.close).1) = Except.error ContextError.useAfterClose ∧
    Context.sdl_window_p sub ((ctx.close).1) = Except.error ContextError.useAfterClose := by
  have hc : ((ctx.close).1).context_p = none := close_fst_context_p ctx
  have hg : ((ctx.close).1).getHandle = Except.error ContextError.useAfterClose :=
    getHandle_closed _ hc
  have hpt : ∀ (a b : Int), Context.pixel_to_tile sub ((ctx.close).1) a b =
      Except.error ContextError.useAfterClose := by
    intro a b
    simp [Context.pixel_to_tile, hg, error_bind]
  refine ⟨?_, hpt x y, ?_, ?_, ?_, ?_, ?_, ?_, ?_⟩
  · simp [Context.present, hg, error_bind]
  · simp [Context.pixel_to_subtile, hg, error_bind]
  · cases ev with
    | state e => simp [Context.convert_event, hpt, error_bind]
    | motion e => simp [Context.convert_event, hpt, error_bind]
  · simp [Context.save_screenshot, hg, error_bind]
  · simp [Context.change_tileset, hg, error_bind]
  · simp [Context.recommended_console_size, hg, error_bind]
  · simp [Context.renderer_type, hg, error_bind]
  · simp [Context.sdl_window_p, hg, error_bind]

/-- C2 witness: a concrete run with the all-success oracle at width 1 and
height 1; after close, `pixel_to_tile` fails with the use-after-close
error. -/
theorem ops_after_close_fail_witness :
    (0 : Int) < 1 ∧
    new_window ok_sub 1 1 none none true none none "prog" = Except.ok ⟨some 7⟩ ∧
    Context.pixel_to_tile ok_sub (((⟨some 7⟩ : Context).close).1) 3 4 =
      Except.error ContextError.useAfterClose :=
  ⟨by decide, rfl,
    (ops_after_close_fail ok_sub 1 1 (by decide) (by decide) none none true none
      none "prog" ⟨some 7⟩ rfl 0 false false (0, 0, 0) (0, 0) 3 4 none none 1 1
      (MouseEvent.state ⟨⟨0, 0⟩, ⟨0, 0⟩⟩)).2.1⟩

/-- C3: `close` is idempotent.  `Context.close` is a total function, so no
call raises; after one `close` the context is closed, a second `close`
returns the same state and releases nothing, and any number of further
`close` calls leaves the state fixed. -/
theorem close_idempotent (c : Context) (n : ℕ) :
    ((c.close).1).context_p = none ∧
    ((c.close).1).close = ((c.close).1, []) ∧
    (fun d : Context => (d.close).1)^[n] ((c.close).1) = (c.close).1 := by
  have h1 : ((c.close).1).context_p = none := close_fst_context_p c
  have h2 : ((c.close).1).close = ((c.close).1, []) := close_closed _ h1
  refine ⟨h1, h2, Function.iterate_fixed ?_ n⟩
  rw [h2]

/-- C4: on a pointer-motion event, `convert_event` sets the tile field to
`pixel_to_tile(pixel)` and the tile-motion field to
`pixel_to_tile(pixel) - pixel_to_tile(pixel - pixel_motion)`: the delta is
obtained by re-converting the derived pre-motion pixel position through the
same transform, not read from any cached previous tile. -/
theorem convert_event_motion_fields (sub : Subsystem) (c : Context) (e : MouseMotion)
    (t p : Int × Int)
    (ht : c.pixel_to_tile sub e.pixel.x e.pixel.y = Except.ok t)
    (hp : c.pixel_to_tile sub (e.pixel.x - e.pixel_motion.x)
        (e.pixel.y - e.pixel_motion.y) = Except.ok p) :
    c.convert_event sub (MouseEvent.motion e) =
      Except.ok (MouseEvent.motion
        ⟨e.pixel, e.pixel_motion, ⟨t.1, t.2⟩, ⟨t.1 - p.1, t.2 - p.2⟩⟩) := by
  simp [Context.convert_event, ht, hp, ok_bind]

/-- C4 witness: with the identity transform, a motion event at pixel
(105, 50) with motion (5, 0) gets tile (105, 50) and tile motion
tile(105, 50) - tile(100, 50) = (5, 0). -/
theorem convert_event_motion_fields_witness :
    Context.pixel_to_tile ok_sub open_ctx 105 50 = Except.ok (105, 50) ∧
    Context.pixel_to_tile ok_sub open_ctx 100 50 = Except.ok (100, 50) ∧
    Context.convert_event ok_sub open_ctx
        (MouseEvent.motion ⟨⟨105, 50⟩, ⟨5, 0⟩, ⟨0, 0⟩, ⟨0, 0⟩⟩) =
      Except.ok (MouseEvent.motion ⟨⟨105, 50⟩, ⟨5, 0⟩, ⟨105, 50⟩, ⟨5, 0⟩⟩) := by
  have ht : Context.pixel_to_tile ok_sub open_ctx 105 50 = Except.ok (105, 50) := rfl
  have hp : Context.pixel_to_tile ok_sub open_ctx (105 - 5) (50 - 0) =
      Except.ok (100, 50) := rfl
  have := convert_event_motion_fields ok_sub open_ctx
    ⟨⟨105, 50⟩, ⟨5, 0⟩, ⟨0, 0⟩, ⟨0, 0⟩⟩ (105, 50) (100, 50) ht hp
  refine ⟨ht, by norm_num at hp; exact hp, ?_⟩
  rw [this]
  norm_num

/-- C5: `new_window` with a non-positive width or height fails with the
construction error (modelled: the spec-modelled subsystem entry rejects the
dimensions with a fatal negative status, which `_check_warn` converts into
an error) and produces no context. -/
theorem new_window_validates_dimensions (sub : Subsystem) (w h : Int)
    (hwh : w ≤ 0 ∨ h ≤ 0) (r : Option Int) (ts : Option Tileset) (vs : Bool)
    (fl : Option Int) (ti : Option String) (argv0 : String) :
    new_window sub w h r ts vs fl ti argv0 =
      Except.error (ContextError.subsystem (-1)) := by
  have hreq : create_window_context sub (new_window_request w h r ts vs fl ti argv0) = -1 := by
    simp [create_window_context, new_window_request, hwh]
  simp [new_window, _check_warn, hreq, error_bind]

/-- C5 witness: `new_window` at width 0, height 5 fails with the
construction error. -/
theorem new_window_validates_dimensions_witness :
    ((0 : Int) ≤ 0 ∨ (5 : Int) ≤ 0) ∧
    new_window ok_sub 0 5 none none true none none "prog" =
      Except.error (ContextError.subsystem (-1)) :=
  ⟨Or.inl (by decide),
    new_window_validates_dimensions ok_sub 0 5 (Or.inl (by decide)) none none
      true none none "prog"⟩

/-- C6: for a context whose conversions are induced by one established
transform, whenever both conversions succeed at the same pixel coordinate
the component-wise floor of `pixel_to_subtile` equals `pixel_to_tile`. -/
theorem pixel_to_subtile_floor_eq_pixel_to_tile (t : Transform) (c : Context)
    (x y : Int) (f : ℚ × ℚ) (n : Int × Int)
    (hf : c.pixel_to_subtile (transform_subsystem t) x y = Except.ok f)
    (hn : c.pixel_to_tile (transform_subsystem t) x y = Except.ok n) :
    (⌊f.1⌋, ⌊f.2⌋) = n := by
  cases hc : c.context_p with
  | none =>
      simp [Context.pixel_to_subtile, getHandle_closed c hc, error_bind] at hf
  | some hdl =>
      have hg : c.getHandle = Except.ok hdl := by simp [Context.getHandle, hc]
      simp [Context.pixel_to_subtile, hg, ok_bind, transform_subsystem, _check] at hf
      simp [Context.pixel_to_tile, hg, ok_bind, transform_subsystem, _check] at hn
      rw [← hf, ← hn]
      simp [transform_pixel_to_subtile, transform_pixel_to_tile]

/-- C6 witness: transform with origin (20, 0) and cell size 12x12 at pixel
(105, 50): the sub-tile result is (85/12, 25/6) and its floor (7, 4) is the
tile result. -/
theorem pixel_to_subtile_floor_eq_pixel_to_tile_witness :
    Context.pixel_to_subtile (transform_subsystem ⟨20, 0, 12, 12⟩) open_ctx 105 50 =
      Except.ok (85/12, 25/6) ∧
    Context.pixel_to_tile (transform_subsystem ⟨20, 0, 12, 12⟩) open_ctx 105 50 =
      Except.ok (7, 4) ∧
    ((⌊(85/12 : ℚ)⌋, ⌊(25/6 : ℚ)⌋) : Int × Int) = (7, 4) := by
  have hf : Context.pixel_to_subtile (transform_subsystem ⟨20, 0, 12, 12⟩) open_ctx 105 50 =
      Except.ok (85/12, 25/6) := by
    norm_num [Context.pixel_to_subtile, Context.getHandle, open_ctx, transform_subsystem,
      _check, transform_pixel_to_subtile]
    rfl
  have hn : Context.pixel_to_tile (transform_subsystem ⟨20, 0, 12, 12⟩) open_ctx 105 50 =
      Except.ok (7, 4) := by
    norm_num [Context.pixel_to_tile, Context.getHandle, open_ctx, transform_subsystem,
      _check, transform_pixel_to_tile]
    rfl
  exact ⟨hf, hn,
    pixel_to_subtile_floor_eq_pixel_to_tile ⟨20, 0, 12, 12⟩ open_ctx 105 50 _ _ hf hn⟩

/-- C7: with `integer_scaling` enabled the applied viewport scale is, on
each axis, the computed scale floored to an integer and never below 1: a
raw scale below 1 is raised to 1, and a raw scale of at least 1 becomes its
floor. -/
theorem integer_scaling_floors (cw ch sw sh : ℚ) (ka : Bool) :
    viewport_scale cw ch sw sh ka true =
      (max 1 (⌊(viewport_scale cw ch sw sh ka false).1⌋ : ℚ),
       max 1 (⌊(viewport_scale cw ch sw sh ka false).2⌋ : ℚ)) ∧
    1 ≤ (viewport_scale cw ch sw sh ka true).1 ∧
    1 ≤ (viewport_scale cw ch sw sh ka true).2 ∧
    ((viewport_scale cw ch sw sh ka false).1 < 1 →
      (viewport_scale cw ch sw sh ka true).1 = 1) ∧
    (1 ≤ (viewport_scale cw ch sw sh ka false).1 →
      (viewport_scale cw ch sw sh ka true).1 = (⌊(viewport_scale cw ch sw sh ka false).1⌋ : ℚ)) := by
  have hmain : viewport_scale cw ch sw sh ka true =
      (max 1 (⌊(viewport_scale cw ch sw sh ka false).1⌋ : ℚ),
       max 1 (⌊(viewport_scale cw ch sw sh ka false).2⌋ : ℚ)) := by
    simp [viewport_scale]
  refine ⟨hmain, ?_, ?_, ?_, ?_⟩
  · rw [hmain]; exact le_max_left 1 _
  · rw [hmain]; exact le_max_left 1 _
  · intro hlt
    rw [hmain]
    have hle : (⌊(viewport_scale cw ch sw sh ka false).1⌋ : ℚ) ≤ 1 :=
      le_trans (Int.floor_le _) (le_of_lt hlt)
    simpa using max_eq_left hle
  · intro hge
    rw [hmain]
    have hfl : (1 : ℤ) ≤ ⌊(viewport_scale cw ch sw sh ka false).1⌋ :=
      Int.le_floor.mpr (by exact_mod_cast hge)
    have hfl2 : (1 : ℚ) ≤ (⌊(viewport_scale cw ch sw sh ka false).1⌋ : ℚ) := by
      exact_mod_cast hfl
    simpa using max_eq_right hfl2

/-- C7 witness: console 80x50 on surface 216x135 with `keep_aspect` gives a
raw scale of 27/10 = 2.7 on each axis; with `integer_scaling` the applied
scale is its floor 2, not 2.7. -/
theorem integer_scaling_floors_witness :
    (viewport_scale 80 50 216 135 true false).1 = 27/10 ∧
    (1 : ℚ) ≤ (viewport_scale 80 50 216 135 true false).1 ∧
    (viewport_scale 80 50 216 135 true true).1 =
      (⌊(viewport_scale 80 50 216 135 true false).1⌋ : ℚ) ∧
    (viewport_scale 80 50 216 135 true true).1 = 2 := by
  have h1 : (viewport_scale 80 50 216 135 true false).1 = 27/10 := by
    norm_num [viewport_scale]
  have hge : (1 : ℚ) ≤ (viewport_scale 80 50 216 135 true false).1 := by
    rw [h1]; norm_num
  have h2 := (integer_scaling_floors 80 50 216 135 true).2.2.2.2 hge
  refine ⟨h1, hge, h2, ?_⟩
  rw [h2, h1]
  norm_num

/-- C8: with `renderer`, `sdl_window_flags` and `title` omitted (passed as
`None`), both `new_window` and `new_terminal` resolve the defaults to
`RENDERER_SDL2` (the hardware-accelerated SDL2 renderer),
`SDL_WINDOW_RESIZABLE`, and the base name of `sys.argv[0]`. -/
theorem new_window_defaults (w h cols rows : Int) (ts : Option Tileset) (vs : Bool)
    (argv0 : String) :
    (new_window_request w h none ts vs none none argv0).renderer = RENDERER_SDL2 ∧
    (new_window_request w h none ts vs none none argv0).sdl_window_flags = SDL_WINDOW_RESIZABLE ∧
    (new_window_request w h none ts vs none none argv0).title = basename argv0 ∧
    (new_terminal_request cols rows none ts vs none none argv0).renderer = RENDERER_SDL2 ∧
    (new_terminal_request cols rows none ts vs none none argv0).sdl_window_flags = SDL_WINDOW_RESIZABLE ∧
    (new_terminal_request cols rows none ts vs none none argv0).title = basename argv0 :=
  ⟨rfl, rfl, rfl, rfl, rfl, rfl⟩

/-- C9: using a `Context` as a scoped acquisition runs `close` on every exit
path: whatever outcome the body produces, success or error, it is returned
unchanged and the context is closed when the scope is left. -/
theorem with_scope_closes_on_all_paths {α : Type} (c : Context)
    (body : Context → Except ContextError α) :
    (c.withScope body).1 = body c ∧
    ((c.withScope body).2).context_p = none :=
  ⟨rfl, close_fst_context_p c⟩

/-- C10: `present` hands the subsystem the options built by
`present_options`, whose clear color keeps only the three RGB components of
the given `clear_color` and always uses the constant 255 as alpha. -/
theorem present_clear_color_opaque (ka isc : Bool) (cc : Int × Int × Int) (al : ℚ × ℚ)
    (sub : Subsystem) (c : Context) (console : Handle) :
    (present_options ka isc cc al).clear_color = (cc.1, cc.2.1, cc.2.2, 255) ∧
    Context.present sub c console ka isc cc al = (do
      let h ← c.getHandle
      let _ ← _check (sub.present_status h console (present_options ka isc cc al))
      return ()) :=
  ⟨rfl, rfl⟩

end Tcod
